import Mathlib

/-!
Verification of the signal-graph engine in `src/synthingie/core.py`.

The development shallowly embeds the Python source:

* Python numbers that flow through the public API are modelled by `PyNum`
  (an `int`, a `float` — modelled as an exact rational — or a `bool`;
  in Python `bool` is a subclass of `int`, so `isinstance(b, (int, float))`
  is true for booleans).
* Python values passed to `Module.as_signal` / `Value.set` are modelled by
  `PyVal` (a number, an existing `Signal` instance referenced by identity,
  a string, or `None`).
* `Module` is the graph container: sample rate, frame size, a counter used
  to give fresh identities to constructed nodes, and the ordered `_steps`
  list (holding node identities).
* `register` and the decorator it returns are modelled as one operation on
  a `Registry` of class-level attribute names, since the only observable
  effect is the `setattr` installing the wrapper under the given name.
* Frame execution (`Module.render_frames`, `Module.render`) is modelled
  over an abstract state `α` holding all node buffers, with each registered
  step given by its node identity and its compute function `α → α`
  (`Signal.__call__`); `render_frames` additionally returns the trace of
  node identities invoked, in order.
* Python's `int(x)` truncates toward zero; `pyInt` models that on `ℚ`.
-/

namespace Synthingie

/-- A Python number: `int`, `float` (modelled exactly as a rational), or
`bool` (a subclass of `int` in Python). -/
inductive PyNum where
  | int (i : ℤ)
  | float (q : ℚ)
  | bool (b : Bool)
deriving DecidableEq, Repr

/-- Numeric value of a Python number (`True == 1`, `False == 0`). -/
def PyNum.toRat : PyNum → ℚ
  | .int i => (i : ℚ)
  | .float q => q
  | .bool b => if b then 1 else 0

/-- A Python value reaching the public coercion/validation boundaries:
a number, an existing `Signal` node (referenced by its identity), a
string, or `None`. -/
inductive PyVal where
  | num (n : PyNum)
  | signal (id : ℕ)
  | str (s : String)
  | none
deriving DecidableEq, Repr

/-- `isinstance(value, (int, float))`: true exactly for numbers, and in
particular for booleans, since `bool` subclasses `int` in Python. -/
def isinstance_int_float : PyVal → Bool
  | .num _ => true
  | _ => false

/-- `isinstance(value, Signal)`. -/
def isinstance_Signal : PyVal → Bool
  | .signal _ => true
  | _ => false

/-- Python `int(x)`: truncation toward zero. -/
def pyInt (q : ℚ) : ℤ :=
  if 0 ≤ q then ⌊q⌋ else -⌊-q⌋

/-- `int(x)` as a natural number (the values we take it of are ≥ 0). -/
def pyIntNat (q : ℚ) : ℕ :=
  (pyInt q).toNat

/-- The graph container `Module`: sample rate, frame size, a fresh-identity
counter for constructed nodes, and the ordered `_steps` list holding the
identities of registered nodes. -/
structure Module where
  samplerate : ℕ
  framesize : ℕ
  nextId : ℕ
  steps : List ℕ
deriving DecidableEq, Repr

/-- A node constructed by an installed factory: its identity, the sample
rate and frame size it was constructed with
(`method_class(self.module, self.samplerate, self.framesize)`), and its
node-kind-specific state `σ` produced by `init` (for `Value`, the stored
scalar `output`). -/
structure GNode (σ : Type) where
  id : ℕ
  samplerate : ℕ
  framesize : ℕ
  st : σ
deriving DecidableEq, Repr

/-- The instance an installed factory method is invoked on: its sample rate
and frame size, and `selfSignal = some i` when the instance is a `Signal`
node with identity `i` (versus `none` when it is the `Module` itself). -/
structure Caller where
  samplerate : ℕ
  framesize : ℕ
  selfSignal : Option ℕ
deriving DecidableEq, Repr

/-- The argument list `init` receives inside the wrapper: the caller
instance is prepended exactly when it is a `Signal`
(`operation.init(self, *args)` versus `operation.init(*args)`). -/
def initArgs (caller : Caller) (args : List PyVal) : List PyVal :=
  match caller.selfSignal with
  | some i => PyVal.signal i :: args
  | Option.none => args

/-- The wrapper installed by `register`'s decorator, invoked on an
instance: construct `operation = method_class(self.module, self.samplerate,
self.framesize)` (identity `m.nextId`), call `operation.init(...)` with the
caller prepended iff the caller is a `Signal` (`init` may raise, modelled
by `Except`; in that case nothing is appended), append the operation to
`self.module._steps`, and return it. `initFn` is the node kind's `init`
reduced to the node state it stores. -/
def factory_call {σ : Type} (initFn : List PyVal → Except String σ)
    (m : Module) (caller : Caller) (args : List PyVal) :
    Except String (Module × GNode σ) :=
  match initFn (initArgs caller args) with
  | .error e => .error e
  | .ok s =>
      .ok ({ m with nextId := m.nextId + 1, steps := m.steps ++ [m.nextId] },
           ⟨m.nextId, caller.samplerate, caller.framesize, s⟩)

/-- `Value.set`: accepts exactly `(float, int)` instances (hence also
booleans) and stores the scalar as the node's `output`; anything else
raises `ValueError`. -/
def Value.set (v : PyVal) : Except String PyNum :=
  match v with
  | .num n => .ok n
  | _ => .error "Value not in accepted types"

/-- `Value.init(self, value)`: a single positional argument, handed to
`self.set(value)` (other arities would be a `TypeError` in Python). -/
def Value.init : List PyVal → Except String PyNum
  | [v] => Value.set v
  | _ => .error "TypeError: init takes exactly one value argument"

/-- `Value.__call__`: `pass` — the compute step leaves the stored scalar
untouched. -/
def Value.call (s : PyNum) : PyNum := s

/-- `Module.value(v)`: the factory installed on `Module` by
`@register(Module, "value")`, called on the module itself (so `init`
receives only `v`). -/
def Module.value (m : Module) (v : PyVal) : Except String (Module × GNode PyNum) :=
  factory_call Value.init m ⟨m.samplerate, m.framesize, Option.none⟩ [v]

/-- Result of `Module.as_signal`: either a freshly constructed `Value`
node, or an existing `Signal` node returned unchanged (by identity). -/
inductive SigResult where
  | newValue (node : GNode PyNum)
  | same (id : ℕ)
deriving DecidableEq, Repr

/-- `Module.as_signal(value)`: numbers (`isinstance(value, (int, float))`,
which includes booleans) go to `self.value(value)`; an existing `Signal`
is returned as-is with the module untouched; anything else raises
`ValueError`. The three `PyVal` cases coincide with the source's ordered
`isinstance` tests. -/
def Module.as_signal (m : Module) (v : PyVal) : Except String (Module × SigResult) :=
  match v with
  | .num n =>
      match Module.value m (.num n) with
      | .ok (m2, node) => .ok (m2, .newValue node)
      | .error e => .error e
  | .signal i => .ok (m, .same i)
  | _ => .error "Cant make a signal out of value"

/-! ### The operator factory registry (`register`) -/

/-- A Python class that might be handed to `register` as `base_class`:
the two classes in `accepted = [Signal, Module]`, the other classes of the
source file, or any other class. Note `Value` is a subclass of `Signal`
but is a distinct class object, so `Value in accepted` is false. -/
inductive PyClass where
  | signal
  | module
  | audio
  | value
  | other (name : String)
deriving DecidableEq, Repr

/-- Class-level attributes: `hasattr(base_class, name)` consults the class
object (own and inherited attributes), not instance attributes. Attributes
assigned to `self` inside `__init__` (for `Signal`: `module`, `samplerate`,
`framesize`, `output`; for `Module`: `module`, `samplerate`, `framesize`,
`_steps`) live on instances only and are invisible to `hasattr` on the
class. -/
structure Registry where
  signalAttrs : List String
  moduleAttrs : List String
deriving DecidableEq, Repr

/-- Attributes of class `Signal` at module-load time: the names bound in
its class body (`dtype`, `__init__`, `init`, `__call__`) plus members
inherited from `object` (a representative sample of the dunders). -/
def signalClassAttrs : List String :=
  ["dtype", "__init__", "init", "__call__", "__doc__", "__class__", "__repr__"]

/-- Attributes of class `Module` after the module loads: the names bound in
its class body (`__init__`, `as_signal`, `render_frames`, `render`), the
factory `value` installed by `@register(Module, "value")` at import, and
members inherited from `object`. -/
def moduleClassAttrs : List String :=
  ["__init__", "as_signal", "render_frames", "render", "value",
   "__doc__", "__class__", "__repr__"]

/-- The registry state right after `core.py` has been imported. -/
def initRegistry : Registry :=
  ⟨signalClassAttrs, moduleClassAttrs⟩

/-- Outcome of `register(base_class, method_name)` together with applying
the decorator it returns (whose only observable registry effect is
`setattr(base_class, method_name, wrapper)`). -/
inductive RegisterResult where
  | ok (r : Registry)
  | invalidBase
  | nameInUse
deriving DecidableEq, Repr

/-- `register(base_class, method_name)`: first `base_class` must be in
`accepted = [Signal, Module]`, else `ValueError` (`invalidBase`); then
`hasattr(base_class, method_name)` must be false, else `NameError`
(`nameInUse`); on success the decorator installs the wrapper via
`setattr`, adding the name to the class's attributes. -/
def register (r : Registry) (base : PyClass) (name : String) : RegisterResult :=
  match base with
  | .signal =>
      if name ∈ r.signalAttrs then .nameInUse
      else .ok { r with signalAttrs := r.signalAttrs ++ [name] }
  | .module =>
      if name ∈ r.moduleAttrs then .nameInUse
      else .ok { r with moduleAttrs := r.moduleAttrs ++ [name] }
  | _ => .invalidBase

/-- `hasattr(base_class, name)` for the two accepted owner classes. -/
def Registry.hasattr (r : Registry) (base : PyClass) (name : String) : Bool :=
  match base with
  | .signal => name ∈ r.signalAttrs
  | .module => name ∈ r.moduleAttrs
  | _ => false

/-! ### Frame execution and rendering -/

/-- One entry of the module's `_steps` list at execution time: the node's
identity and its compute step (`__call__`) acting on the shared node-buffer
state `α`. -/
structure Step (α : Type) where
  id : ℕ
  compute : α → α

/-- `Module.render_frames`: `for step in self._steps: step()`. Returns the
final state together with the trace of node identities whose compute step
was invoked, in invocation order. -/
def render_frames {α : Type} (steps : List (Step α)) (s : α) : α × List ℕ :=
  steps.foldl (fun acc stp => (stp.compute acc.1, acc.2 ++ [stp.id])) (s, [])

/-- `num_frames = int(duration_s * self.samplerate / self.framesize) + 1`. -/
def num_frames (samplerate framesize : ℕ) (duration_s : ℚ) : ℕ :=
  pyIntNat (duration_s * samplerate / framesize) + 1

/-- The render loop: `n` iterations of `self.render_frames()` each followed
by copying the target's current output buffer into the next slice
(`output[i*framesize:(i+1)*framesize] = target.output`). Returns the list
of copied frames, in order. `targetOutput` reads the target node's output
buffer from the state. -/
def render_loop {α : Type} (steps : List (Step α)) (targetOutput : α → List ℚ) :
    ℕ → α → List (List ℚ)
  | 0, _ => []
  | n + 1, s =>
      let s2 := (render_frames steps s).1
      targetOutput s2 :: render_loop steps targetOutput n s2

/-- `Module.render(target, duration_s)`: run `num_frames` frames into a
buffer of `num_frames * framesize` samples, then truncate to
`output[:int(duration_s * self.samplerate)]`. -/
def Module.render {α : Type} (samplerate framesize : ℕ) (duration_s : ℚ)
    (steps : List (Step α)) (s0 : α) (targetOutput : α → List ℚ) : List ℚ :=
  (render_loop steps targetOutput (num_frames samplerate framesize duration_s) s0).flatten.take
    (pyIntNat (duration_s * samplerate))

/-- Numpy slice assignment `output[i*fs:(i+1)*fs] = scalar` broadcasts a
bare scalar (a `Value` node's `output`) across the whole slice. -/
def scalar_frame (framesize : ℕ) (v : PyNum) : List ℚ :=
  List.replicate framesize v.toRat

/-! ### Helper lemmas -/

lemma foldl_trace {α : Type} (steps : List (Step α)) :
    ∀ (s : α) (acc : List ℕ),
      (steps.foldl (fun acc2 stp => (stp.compute acc2.1, acc2.2 ++ [stp.id])) (s, acc)).2
        = acc ++ steps.map Step.id := by
  induction steps with
  | nil => intro s acc; simp
  | cons a t ih => intro s acc; simp [List.foldl, ih]

lemma render_frames_trace {α : Type} (steps : List (Step α)) (s : α) :
    (render_frames steps s).2 = steps.map Step.id := by
  simpa [render_frames] using foldl_trace steps s []

lemma render_loop_length {α : Type} (steps : List (Step α)) (t : α → List ℚ) :
    ∀ (n : ℕ) (s : α), (render_loop steps t n s).length = n := by
  intro n
  induction n with
  | zero => intro s; rfl
  | succ k ih => intro s; simp [render_loop, ih]

lemma render_loop_flatten_length {α : Type} (steps : List (Step α)) (t : α → List ℚ)
    (framesize : ℕ) (hlen : ∀ s, (t s).length = framesize) :
    ∀ (n : ℕ) (s : α), (render_loop steps t n s).flatten.length = n * framesize := by
  intro n
  induction n with
  | zero => intro s; simp [render_loop]
  | succ k ih =>
      intro s
      simp [render_loop, ih, hlen, Nat.succ_mul, Nat.add_comm]

lemma pyInt_of_nonneg {q : ℚ} (h : 0 ≤ q) : pyInt q = ⌊q⌋ := if_pos h

lemma pyIntNat_le_num_frames_mul (samplerate framesize : ℕ) (duration_s : ℚ)
    (hfs : 0 < framesize) (hd : 0 ≤ duration_s) :
    pyIntNat (duration_s * samplerate) ≤ num_frames samplerate framesize duration_s * framesize := by
  have hx : (0 : ℚ) ≤ duration_s * samplerate := mul_nonneg hd (Nat.cast_nonneg _)
  have hq : (0 : ℚ) ≤ duration_s * samplerate / framesize := div_nonneg hx (Nat.cast_nonneg _)
  have hfsQ : (0 : ℚ) < framesize := by exact_mod_cast hfs
  obtain ⟨a, ha⟩ : ∃ a : ℕ, ⌊duration_s * samplerate / framesize⌋ = a :=
    ⟨_, (Int.toNat_of_nonneg (Int.floor_nonneg.2 hq)).symm⟩
  obtain ⟨b, hb⟩ : ∃ b : ℕ, ⌊duration_s * samplerate⌋ = b :=
    ⟨_, (Int.toNat_of_nonneg (Int.floor_nonneg.2 hx)).symm⟩
  have h1 : duration_s * samplerate / framesize < (a : ℚ) + 1 := by
    have h := Int.lt_floor_add_one (duration_s * samplerate / framesize)
    rw [ha] at h
    exact_mod_cast h
  have h2 : duration_s * samplerate < ((a : ℚ) + 1) * framesize := (div_lt_iff₀ hfsQ).1 h1
  have h3 : (b : ℚ) ≤ duration_s * samplerate := by
    have h := Int.floor_le (duration_s * samplerate)
    rw [hb] at h
    exact_mod_cast h
  have h4 : (b : ℚ) < (((a + 1) * framesize : ℕ) : ℚ) := by
    push_cast
    linarith
  have h5 : b < (a + 1) * framesize := by exact_mod_cast h4
  rw [num_frames, pyIntNat, pyIntNat, pyInt_of_nonneg hx, pyInt_of_nonneg hq, ha, hb]
  simpa using h5.le

lemma render_length {α : Type} (samplerate framesize : ℕ) (duration_s : ℚ)
    (steps : List (Step α)) (s0 : α) (targetOutput : α → List ℚ)
    (hfs : 0 < framesize) (hd : 0 ≤ duration_s)
    (hlen : ∀ s, (targetOutput s).length = framesize) :
    (Module.render samplerate framesize duration_s steps s0 targetOutput).length
      = pyIntNat (duration_s * samplerate) := by
  unfold Module.render
  rw [List.length_take, render_loop_flatten_length steps targetOutput framesize hlen]
  exact Nat.min_eq_left (pyIntNat_le_num_frames_mul samplerate framesize duration_s hfs hd)

/-! ### The claims -/

/-- C6: one call to `render_frames` (`run_frame`) invokes each registered
node's compute step exactly once — the invocation trace is exactly the step
list's node identities, in registration order, and has the step list's
length. -/
theorem c6_render_frames_order {α : Type} (steps : List (Step α)) (s : α) :
    (render_frames steps s).2 = steps.map Step.id ∧
    (render_frames steps s).2.length = steps.length := by
  have h := render_frames_trace steps s
  exact ⟨h, by rw [h, List.length_map]⟩

/-- C2 counterexample: with `sample_rate = 10`, `frame_size = 4`,
`duration_s = 1`, the code computes `int(10/4) + 1 = 3` frames, not
`ceil(10/4) + 1 = 4` as the claim states. -/
theorem c2_ceil_counterexample :
    (render_loop ([] : List (Step Unit)) (fun _ => List.replicate 4 0)
        (num_frames 10 4 1) ()).length
      ≠ (⌈(1 : ℚ) * 10 / 4⌉).toNat + 1 := by
  rw [render_loop_length]
  have h1 : num_frames 10 4 1 = 3 := by
    norm_num [num_frames, pyIntNat, pyInt]
    decide
  have h2 : ⌈(1 : ℚ) * 10 / 4⌉ = 3 := by
    rw [show ((1 : ℚ) * 10 / 4) = 5 / 2 by norm_num, Int.ceil_eq_iff]
    norm_num
  rw [h1, h2]
  decide

/-- C2 amended: for positive sample rate, frame size and duration, `render`
runs the step list exactly `int(duration_s * sample_rate / frame_size) + 1`
times, i.e. `⌊duration_s * sample_rate / frame_size⌋ + 1` frames (floor,
not ceiling). -/
theorem c2_frame_count {α : Type} (samplerate framesize : ℕ) (duration_s : ℚ)
    (steps : List (Step α)) (s0 : α) (targetOutput : α → List ℚ)
    (hd : 0 < duration_s) :
    (render_loop steps targetOutput (num_frames samplerate framesize duration_s) s0).length
      = (⌊duration_s * samplerate / framesize⌋).toNat + 1 := by
  rw [render_loop_length, num_frames, pyIntNat, pyInt_of_nonneg]
  exact div_nonneg (mul_nonneg hd.le (Nat.cast_nonneg _)) (Nat.cast_nonneg _)

/-- C2 witness: the amended frame count at `sample_rate = 10`,
`frame_size = 4`, `duration_s = 1`. -/
theorem c2_frame_count_witness :
    (render_loop ([] : List (Step Unit)) (fun _ => List.replicate 4 0)
        (num_frames 10 4 1) ()).length
      = (⌊(1 : ℚ) * 10 / 4⌋).toNat + 1 :=
  c2_frame_count 10 4 1 [] () (fun _ => List.replicate 4 0) (by norm_num)

/-- C1 counterexample: with `sample_rate = 10`, `frame_size = 4`,
`duration_s = 0.79` (all positive), the output has
`int(0.79 * 10) = 7` samples, not `round(0.79 * 10) = 8` as the claim
states. -/
theorem c1_round_counterexample :
    (Module.render 10 4 (79 / 100) ([] : List (Step Unit)) ()
        (fun _ => List.replicate 4 0)).length
      ≠ (round ((79 / 100 : ℚ) * 10)).toNat := by
  have h1 : (Module.render 10 4 (79 / 100) ([] : List (Step Unit)) ()
      (fun _ => List.replicate 4 0)).length = pyIntNat ((79 / 100 : ℚ) * 10) :=
    render_length 10 4 (79 / 100) [] () _ (by norm_num) (by norm_num) (fun _ => by simp)
  have h2 : pyIntNat ((79 / 100 : ℚ) * 10) = 7 := by
    norm_num [pyIntNat, pyInt]
    decide
  have h3 : round ((79 / 100 : ℚ) * 10) = 8 := by norm_num [round_eq]
  rw [h1, h2, h3]
  decide

/-- C1 amended: for positive sample rate, frame size and duration (and a
target whose output buffer has the frame size), `render` returns exactly
`int(duration_s * sample_rate)` = `⌊duration_s * sample_rate⌋` samples
(truncation, not rounding). -/
theorem c1_render_length {α : Type} (samplerate framesize : ℕ) (duration_s : ℚ)
    (steps : List (Step α)) (s0 : α) (targetOutput : α → List ℚ)
    (_hsr : 0 < samplerate) (hfs : 0 < framesize) (hd : 0 < duration_s)
    (hlen : ∀ s, (targetOutput s).length = framesize) :
    (Module.render samplerate framesize duration_s steps s0 targetOutput).length
      = (⌊duration_s * samplerate⌋).toNat := by
  rw [render_length samplerate framesize duration_s steps s0 targetOutput hfs hd.le hlen,
    pyIntNat, pyInt_of_nonneg (mul_nonneg hd.le (Nat.cast_nonneg _))]

/-- C1 witness: the amended length at `sample_rate = 10`, `frame_size = 4`,
`duration_s = 1/2`: `⌊5⌋ = 5` samples. -/
theorem c1_render_length_witness :
    (Module.render 10 4 (1 / 2) ([] : List (Step Unit)) ()
        (fun _ => List.replicate 4 0)).length
      = (⌊(1 / 2 : ℚ) * 10⌋).toNat :=
  c1_render_length 10 4 (1 / 2) [] () (fun _ => List.replicate 4 0)
    (by norm_num) (by norm_num) (by norm_num) (fun _ => by simp)

/-- C3: `as_signal` (`wrap`) is a three-case coercion: a raw number yields
a fresh constant-value node holding exactly that number, appended to the
step list exactly once; an existing `Signal` is returned as the same node
with the module untouched; anything else raises the unsupported-coercion
error. -/
theorem c3_as_signal_cases (m : Module) :
    (∀ n : PyNum,
        Module.as_signal m (PyVal.num n) =
          Except.ok ({ m with nextId := m.nextId + 1, steps := m.steps ++ [m.nextId] },
            SigResult.newValue ⟨m.nextId, m.samplerate, m.framesize, n⟩) ∧
        (m.nextId ∉ m.steps → (m.steps ++ [m.nextId]).count m.nextId = 1)) ∧
    (∀ i : ℕ, Module.as_signal m (PyVal.signal i) = Except.ok (m, SigResult.same i)) ∧
    (∀ v : PyVal, isinstance_int_float v = false → isinstance_Signal v = false →
        ∃ e, Module.as_signal m v = Except.error e) := by
  refine ⟨fun n => ⟨rfl, fun h => ?_⟩, fun i => rfl, fun v h1 h2 => ?_⟩
  · rw [List.count_append, List.count_eq_zero.mpr h]
    simp
  · cases v with
    | num n => simp [isinstance_int_float] at h1
    | signal i => simp [isinstance_Signal] at h2
    | str s => exact ⟨_, rfl⟩
    | none => exact ⟨_, rfl⟩

/-- C3 witness: `wrap(5)` on a fresh module registers a constant-value
node holding 5 exactly once, and `wrap("no")` fails. -/
theorem c3_as_signal_witness :
    Module.as_signal ⟨8000, 256, 0, []⟩ (PyVal.num (PyNum.int 5)) =
      Except.ok (⟨8000, 256, 1, [0]⟩, SigResult.newValue ⟨0, 8000, 256, PyNum.int 5⟩) ∧
    (([] : List ℕ) ++ [0]).count 0 = 1 ∧
    (∃ e, Module.as_signal ⟨8000, 256, 0, []⟩ (PyVal.str "no") = Except.error e) :=
  ⟨((c3_as_signal_cases ⟨8000, 256, 0, []⟩).1 (PyNum.int 5)).1,
   ((c3_as_signal_cases ⟨8000, 256, 0, []⟩).1 (PyNum.int 5)).2 (by decide),
   (c3_as_signal_cases ⟨8000, 256, 0, []⟩).2.2 (PyVal.str "no") rfl rfl⟩

/-- C4: `register` fails with the duplicate-registration error when the
name is already attached to a recognized owner class, fails with the
unsupported-owner error for any other class, succeeds on a recognized
owner with an unused name, and after registering a name on one owner the
same name still registers fine on the other, previously-unused owner. -/
theorem c4_register_rules (r : Registry) (n : String) :
    (Registry.hasattr r PyClass.signal n = true →
        register r PyClass.signal n = RegisterResult.nameInUse) ∧
    (Registry.hasattr r PyClass.module n = true →
        register r PyClass.module n = RegisterResult.nameInUse) ∧
    (∀ B : PyClass, B ≠ PyClass.signal → B ≠ PyClass.module →
        register r B n = RegisterResult.invalidBase) ∧
    (Registry.hasattr r PyClass.signal n = false →
        ∃ r2, register r PyClass.signal n = RegisterResult.ok r2) ∧
    (Registry.hasattr r PyClass.module n = false →
        ∃ r2, register r PyClass.module n = RegisterResult.ok r2) ∧
    (∀ r2, register r PyClass.signal n = RegisterResult.ok r2 →
        Registry.hasattr r PyClass.module n = false →
        ∃ r3, register r2 PyClass.module n = RegisterResult.ok r3) ∧
    (∀ r2, register r PyClass.module n = RegisterResult.ok r2 →
        Registry.hasattr r PyClass.signal n = false →
        ∃ r3, register r2 PyClass.signal n = RegisterResult.ok r3) := by
  refine ⟨?_, ?_, ?_, ?_, ?_, ?_, ?_⟩
  · intro h
    have hm : n ∈ r.signalAttrs := by simpa [Registry.hasattr] using h
    simp [register, hm]
  · intro h
    have hm : n ∈ r.moduleAttrs := by simpa [Registry.hasattr] using h
    simp [register, hm]
  · intro B h1 h2
    cases B with
    | signal => exact absurd rfl h1
    | module => exact absurd rfl h2
    | audio => rfl
    | value => rfl
    | other s => rfl
  · intro h
    have hm : n ∉ r.signalAttrs := by simpa [Registry.hasattr] using h
    exact ⟨{ r with signalAttrs := r.signalAttrs ++ [n] }, by simp [register, hm]⟩
  · intro h
    have hm : n ∉ r.moduleAttrs := by simpa [Registry.hasattr] using h
    exact ⟨{ r with moduleAttrs := r.moduleAttrs ++ [n] }, by simp [register, hm]⟩
  · intro r2 h hmod
    have hm : n ∉ r.moduleAttrs := by simpa [Registry.hasattr] using hmod
    by_cases hs : n ∈ r.signalAttrs
    · simp [register, hs] at h
    · simp [register, hs] at h
      exact ⟨{ r2 with moduleAttrs := r2.moduleAttrs ++ [n] }, by simp [register, ← h, hm]⟩
  · intro r2 h hsig
    have hm : n ∉ r.signalAttrs := by simpa [Registry.hasattr] using hsig
    by_cases hs : n ∈ r.moduleAttrs
    · simp [register, hs] at h
    · simp [register, hs] at h
      exact ⟨{ r2 with signalAttrs := r2.signalAttrs ++ [n] }, by simp [register, ← h, hm]⟩

/-- C4 witness: on the freshly-imported registry, `register(Signal,
"dtype")` hits the duplicate error, `register(Audio, "sine")` hits the
invalid-base error, and `register(Signal, "sine")` succeeds. -/
theorem c4_register_witness :
    register initRegistry PyClass.signal "dtype" = RegisterResult.nameInUse ∧
    register initRegistry PyClass.audio "sine" = RegisterResult.invalidBase ∧
    (∃ r2, register initRegistry PyClass.signal "sine" = RegisterResult.ok r2) :=
  ⟨(c4_register_rules initRegistry "dtype").1 (by decide),
   (c4_register_rules initRegistry "sine").2.2.1 PyClass.audio (by decide) (by decide),
   (c4_register_rules initRegistry "sine").2.2.2.1 (by decide)⟩

/-- C5: an installed factory, invoked on an instance whose `init` succeeds,
constructs a node carrying the instance's sample rate and frame size and a
fresh identity, hands `init` the instance prepended to the arguments
exactly when the instance is a `Signal`, appends the new node's identity to
the owning module's step list, and returns the node. -/
theorem c5_factory_behavior (σ : Type) (initFn : List PyVal → Except String σ)
    (m : Module) (caller : Caller) (args : List PyVal) (s : σ)
    (h : initFn (initArgs caller args) = Except.ok s) :
    factory_call initFn m caller args =
      Except.ok ({ m with nextId := m.nextId + 1, steps := m.steps ++ [m.nextId] },
        ⟨m.nextId, caller.samplerate, caller.framesize, s⟩) ∧
    (∀ i, caller.selfSignal = some i → initArgs caller args = PyVal.signal i :: args) ∧
    (caller.selfSignal = Option.none → initArgs caller args = args) := by
  refine ⟨by simp [factory_call, h], fun i hi => ?_, fun hn => ?_⟩
  · simp [initArgs, hi]
  · simp [initArgs, hn]

/-- C5 witness: the `value` factory invoked on a module instance (no
`Signal` self-argument) with argument 2. -/
theorem c5_factory_witness :
    factory_call Value.init ⟨44100, 64, 0, []⟩ ⟨44100, 64, Option.none⟩
        [PyVal.num (PyNum.int 2)] =
      Except.ok (⟨44100, 64, 1, [0]⟩, ⟨0, 44100, 64, PyNum.int 2⟩) :=
  (c5_factory_behavior PyNum Value.init ⟨44100, 64, 0, []⟩ ⟨44100, 64, Option.none⟩
    [PyVal.num (PyNum.int 2)] (PyNum.int 2) rfl).1

/-! ### The end-to-end scenario (C7) and remaining claims -/

lemma render_loop_const {α : Type} (steps : List (Step α)) (t : α → List ℚ) (s : α)
    (hstate : (render_frames steps s).1 = s) :
    ∀ n : ℕ, render_loop steps t n s = List.replicate n (t s) := by
  intro n
  induction n with
  | zero => rfl
  | succ k ih => simp [render_loop, hstate, ih, List.replicate_succ]

lemma flatten_replicate (n k : ℕ) (v : ℚ) :
    (List.replicate n (List.replicate k v)).flatten = List.replicate (n * k) v := by
  induction n with
  | zero => simp
  | succ m ih =>
      rw [List.replicate_succ, List.flatten_cons, ih, ← List.replicate_add, Nat.succ_mul,
        Nat.add_comm]

/-- The module of the end-to-end scenario: sample rate 8000, frame size
256, nothing registered yet. -/
def c7_module : Module := ⟨8000, 256, 0, []⟩

/-- The single constant-value node's execution step: identity 0, compute
step `Value.__call__` (`pass`). The execution state is the node's stored
scalar. -/
def c7_step : Step PyNum := ⟨0, Value.call⟩

/-- The samples produced by `render(target, 1.0)` in the scenario: the
target is the `Value` node holding `1.0`, whose bare-scalar output is
broadcast across each frame slice. -/
def c7_output : List ℚ :=
  Module.render 8000 256 1 [c7_step] (PyNum.float 1) (fun s => scalar_frame 256 s)

/-- C7: with sample rate 8000 and frame size 256, `value(1.0)` registers a
single constant-value node holding `1.0` at step-list position 0, and
rendering one second with it as target yields exactly 8000 samples, each
equal to `1.0`. -/
theorem c7_end_to_end :
    Module.value c7_module (PyVal.num (PyNum.float 1)) =
      Except.ok (⟨8000, 256, 1, [0]⟩, ⟨0, 8000, 256, PyNum.float 1⟩) ∧
    c7_output.length = 8000 ∧ ∀ x ∈ c7_output, x = 1 := by
  have hrep : c7_output = List.replicate 8000 1 := by
    have hnf : num_frames 8000 256 1 = 32 := by
      norm_num [num_frames, pyIntNat, pyInt]
      decide
    have htr : pyIntNat ((1 : ℚ) * ((8000 : ℕ) : ℚ)) = 8000 := by
      norm_num [pyIntNat, pyInt]
      decide
    have hframe : scalar_frame 256 (PyNum.float 1) = List.replicate 256 (1 : ℚ) := rfl
    unfold c7_output Module.render
    rw [hnf, htr, render_loop_const [c7_step] _ (PyNum.float 1) rfl, hframe,
      flatten_replicate, List.take_replicate]
    norm_num
  refine ⟨rfl, ?_, ?_⟩
  · rw [hrep, List.length_replicate]
  · intro x hx
    rw [hrep] at hx
    exact List.eq_of_mem_replicate hx

/-- C8: `Value.set` accepts any number and stores it, and the compute step
(`__call__`, a no-op) iterated any number of times — one `run_frame` per
iteration on a module whose step list holds the node — leaves the stored
output unchanged. -/
theorem c8_set_then_compute (v : PyNum) (k i : ℕ) :
    Value.set (PyVal.num v) = Except.ok v ∧
    (fun s => (render_frames [⟨i, Value.call⟩] s).1)^[k] v = v := by
  refine ⟨rfl, ?_⟩
  induction k with
  | zero => rfl
  | succ n ih =>
      rw [Function.iterate_succ_apply]
      exact ih

/-- C9 counterexample: the claim says a name existing as an attribute of
instances of `Signal`, like `output`, triggers the duplicate error; but
`output` is assigned in `__init__` and is not a class attribute, so
`hasattr(Signal, "output")` is false and registration succeeds. -/
theorem c9_output_counterexample :
    register initRegistry PyClass.signal "output" ≠ RegisterResult.nameInUse := by
  decide

/-- C9 amended: the duplicate check is `hasattr` on the owner class, so
every class-level attribute (own, inherited or previously registered) such
as `init` on `Signal` or `render`, `as_signal`, `value` on `Module`
triggers the duplicate error — but instance-only attributes such as
`output` (assigned in `__init__`) do not, and registering them succeeds. -/
theorem c9_class_attr_duplicate (r : Registry) (n : String) :
    (n ∈ r.signalAttrs → register r PyClass.signal n = RegisterResult.nameInUse) ∧
    (n ∈ r.moduleAttrs → register r PyClass.module n = RegisterResult.nameInUse) ∧
    register initRegistry PyClass.signal "init" = RegisterResult.nameInUse ∧
    register initRegistry PyClass.module "render" = RegisterResult.nameInUse ∧
    register initRegistry PyClass.module "as_signal" = RegisterResult.nameInUse ∧
    register initRegistry PyClass.module "value" = RegisterResult.nameInUse ∧
    (∃ r2, register initRegistry PyClass.signal "output" = RegisterResult.ok r2) := by
  refine ⟨fun h => by simp [register, h], fun h => by simp [register, h],
    by decide, by decide, by decide, by decide,
    ⟨⟨signalClassAttrs ++ ["output"], moduleClassAttrs⟩, by decide⟩⟩

/-- C9 witness: `dtype` is a class attribute of `Signal`, so registering
it is a duplicate. -/
theorem c9_class_attr_witness :
    register initRegistry PyClass.signal "dtype" = RegisterResult.nameInUse :=
  (c9_class_attr_duplicate initRegistry "dtype").1 (by decide)

/-- C10: booleans pass the numeric checks (`bool` subclasses `int` in
Python): `wrap(True)` constructs and registers a constant-value node
storing the boolean, and `Value.set(True)` succeeds and stores the boolean
as the output, with numeric value 1. -/
theorem c10_bool_accepted (m : Module) (b : Bool) :
    Module.as_signal m (PyVal.num (PyNum.bool b)) =
      Except.ok ({ m with nextId := m.nextId + 1, steps := m.steps ++ [m.nextId] },
        SigResult.newValue ⟨m.nextId, m.samplerate, m.framesize, PyNum.bool b⟩) ∧
    Value.set (PyVal.num (PyNum.bool b)) = Except.ok (PyNum.bool b) ∧
    (PyNum.bool true).toRat = 1 :=
  ⟨rfl, rfl, rfl⟩

end Synthingie
